import Mathlib

/-!
Shallow embedding of the Cerebras-Project scientific literature explorer
(src/Implementation/mains.py, main.py, app-frontend.py).

Python strings are modelled as `List Char` (`Str`), dictionaries with a
known key set as structures of `Option` fields (`none` = key absent,
`dict.get k default` = `Option.getD`), and the SQLite `papers` table as a
list of rows (`Store`).  The remote Cerebras model is opaque: its reply is
an explicit oracle argument (`ModelReply`), as is a storage fault
(`Option Str` = the `sqlite3.Error` message, `none` = no exception).
-/

/-- A Python `str`, modelled as its character sequence. -/
abbrev Str := List Char

/-- `','.join(ls)` (Python `str.join` with a one-character separator). -/
def join_comma (ls : List Str) : Str :=
  [','].intercalate ls

/-- `s.split(',')` (Python `str.split` with an explicit one-character
separator: `"".split(',') == ['']`, `"a,b".split(',') == ['a','b']`). -/
def split_comma (s : Str) : List Str :=
  s.splitOn ','

/-- `re.sub(r'[^a-zA-Z0-9]', '-', s)`: every character outside
`[a-zA-Z0-9]` is replaced by `'-'` (mains.py line 202, main.py line 174). -/
def slugify (s : Str) : Str :=
  s.map fun c =>
    if ('a' ≤ c ∧ c ≤ 'z') ∨ ('A' ≤ c ∧ c ≤ 'Z') ∨ ('0' ≤ c ∧ c ≤ '9') then c else '-'

/-- Python `str.strip()` whitespace test (ASCII whitespace characters). -/
def py_is_space (c : Char) : Bool :=
  c == ' ' || c == '\t' || c == '\n' || c == '\x0d' || c == '\x0b' || c == '\x0c'

/-- Python `s.strip()`: drop leading and trailing whitespace. -/
def py_strip (s : Str) : Str :=
  ((s.dropWhile py_is_space).reverse.dropWhile py_is_space).reverse

/-- One row of the `papers` table
(`doi TEXT PRIMARY KEY, title, authors, content, citations, source`;
the store-assigned `ingestion_date` column plays no part in the claims
and is omitted).  `authors`/`citations` hold the comma-joined strings. -/
structure Row where
  doi : Str
  title : Str
  authors : Str
  content : Str
  citations : Str
  source : Str
deriving DecidableEq, Repr

/-- The `papers` table: a list of rows.  `doi` is the PRIMARY KEY, so a
store reachable through `ingest_paper` has at most one row per doi. -/
abbrev Store := List Row

/-- The `paper_data` dict passed to `ingest_paper` (mains.py line 275):
each field is `none` when the key is absent. -/
structure PaperData where
  doi : Option Str
  title : Option Str
  authors : Option (List Str)
  content : Option Str
  citations : Option (List Str)
  source : Option Str
deriving DecidableEq, Repr

/-- Result dict of `ingest_paper`: `{'status':'success','doi':…,'title':…}`
or `{'status':'error','message':…}`. -/
inductive IngestResult where
  | success (doi : Str) (title : Str)
  | error (message : Str)
deriving DecidableEq, Repr

/-- `INSERT OR REPLACE` keyed on the PRIMARY KEY `doi`: the row with the
matching key (unique in a reachable store) is replaced in place;
a fresh key is appended. -/
def replace_by_doi (r q : Row) : Row :=
  if q.doi = r.doi then r else q

/-- Effect of `INSERT OR REPLACE INTO papers … VALUES …` on the table. -/
def upsert_row (s : Store) (r : Row) : Store :=
  if s.any fun q => q.doi == r.doi then s.map (replace_by_doi r) else s ++ [r]

/-- The row built by `ingest_paper` from `paper_data`
(mains.py lines 289-303): `paper_data.get(key, default)` for each column,
lists comma-joined. -/
def ingest_paper_row (pd : PaperData) : Row :=
  { doi := pd.doi.getD "unknown".data
    title := pd.title.getD []
    authors := join_comma (pd.authors.getD [])
    content := pd.content.getD []
    citations := join_comma (pd.citations.getD [])
    source := pd.source.getD [] }

/-- The database write inside `ingest_paper`: `cursor.execute(INSERT OR
REPLACE …); conn.commit()`.  A `sqlite3.Error` raised here (`fault = some
msg`) aborts the write before anything is committed; the surrounding
`with sqlite3.connect(…)` block rolls the transaction back. -/
def db_write (fault : Option Str) (s : Store) (r : Row) : Except Str Store :=
  match fault with
  | some msg => .error msg
  | none => .ok (upsert_row s r)

/-- `ScientificLiteratureExplorer.ingest_paper` (mains.py lines 275-318)
with the storage fault explicit: the `try`/`except sqlite3.Error` wrapper
turns a storage exception into `{'status':'error','message':str(e)}` and
leaves the table unchanged; on success it returns
`{'status':'success','doi':…,'title':…}`.  The function is total: no
exception escapes to the caller. -/
def ingest_paper_with_fault (fault : Option Str) (s : Store) (pd : PaperData) :
    Store × IngestResult :=
  match db_write fault s (ingest_paper_row pd) with
  | .ok s' => (s', .success (pd.doi.getD "unknown".data) (pd.title.getD []))
  | .error msg => (s, .error msg)

/-- `ingest_paper` on a healthy store (no storage exception). -/
def ingest_paper (s : Store) (pd : PaperData) : Store × IngestResult :=
  ingest_paper_with_fault none s pd

/-- The dict shape returned per row by `load_papers` (mains.py lines
262-270): the SELECT reads only `doi, title, authors, content, source` —
the `citations` column is not read back. -/
structure LoadedPaper where
  doi : Str
  title : Str
  authors : List Str
  content : Str
  source : Str
deriving DecidableEq, Repr

/-- One row of `load_papers` output:
`paper[2].split(',') if paper[2] else []` for `authors`. -/
def load_row (r : Row) : LoadedPaper :=
  { doi := r.doi
    title := r.title
    authors := if r.authors = [] then [] else split_comma r.authors
    content := r.content
    source := r.source }

/-- `ScientificLiteratureExplorer.load_papers` (mains.py lines 249-273)
with the storage fault explicit: any `sqlite3.Error` — the database file
cannot be opened, the SELECT or fetch throws — is caught by the
`except sqlite3.Error` clause and the function returns `[]`. -/
def load_papers_with_fault (fault : Option Str) (s : Store) : List LoadedPaper :=
  match fault with
  | some _ => []
  | none => s.map load_row

/-- `load_papers` on a healthy store. -/
def load_papers (s : Store) : List LoadedPaper :=
  load_papers_with_fault none s

/-- `replace_by_doi r r` is `r` itself. -/
lemma replace_by_doi_self (r : Row) : replace_by_doi r r = r := by
  simp [replace_by_doi]

/-- When a row with the key is present, the upsert maps the table. -/
lemma upsert_row_of_mem {s : Store} {r : Row}
    (h : (s.any fun q => q.doi == r.doi) = true) :
    upsert_row s r = s.map (replace_by_doi r) := by
  rw [upsert_row, if_pos h]

/-- When no row has the key, the upsert appends the new row. -/
lemma upsert_row_of_not_mem {s : Store} {r : Row}
    (h : ¬ (s.any fun q => q.doi == r.doi) = true) :
    upsert_row s r = s ++ [r] := by
  rw [upsert_row, if_neg h]

/-- After an upsert of `r`, a row with `r`'s key is present. -/
lemma any_upsert_row (s : Store) (r : Row) :
    ((upsert_row s r).any fun q => q.doi == r.doi) = true := by
  by_cases h : (s.any fun q => q.doi == r.doi) = true
  · rw [upsert_row_of_mem h, List.any_eq_true] at *
    obtain ⟨q, hq, hqd⟩ := h
    refine ⟨replace_by_doi r q, List.mem_map_of_mem _ hq, ?_⟩
    rw [beq_iff_eq] at hqd
    simp [replace_by_doi, hqd]
  · rw [upsert_row_of_not_mem h]
    simp

/-- Replacing by the same row twice is the same as replacing once. -/
lemma replace_by_doi_idem (r q : Row) :
    replace_by_doi r (replace_by_doi r q) = replace_by_doi r q := by
  by_cases h : q.doi = r.doi
  · simp [replace_by_doi, h]
  · simp [replace_by_doi, h]

/-- Upserting the same row twice leaves the table as after one upsert. -/
lemma upsert_row_idem (s : Store) (r : Row) :
    upsert_row (upsert_row s r) r = upsert_row s r := by
  rw [upsert_row_of_mem (any_upsert_row s r)]
  by_cases h : (s.any fun q => q.doi == r.doi) = true
  · rw [upsert_row_of_mem h, List.map_map]
    exact List.map_congr_left fun q _ => replace_by_doi_idem r q
  · rw [upsert_row_of_not_mem h, List.map_append]
    have hs : ∀ q ∈ s, ¬ (q.doi == r.doi) = true := by
      intro q hq hqd
      exact h (List.any_eq_true.mpr ⟨q, hq, hqd⟩)
    have : s.map (replace_by_doi r) = s := by
      conv_rhs => rw [← List.map_id s]
      refine List.map_congr_left fun q hq => ?_
      have hne := hs q hq
      rw [beq_iff_eq] at hne
      simp [replace_by_doi, hne]
    rw [this]
    simp [replace_by_doi_self]

/-- The freshly upserted row is a member of the resulting table. -/
lemma self_mem_upsert_row (s : Store) (r : Row) : r ∈ upsert_row s r := by
  by_cases h : (s.any fun q => q.doi == r.doi) = true
  · rw [upsert_row_of_mem h]
    rw [List.any_eq_true] at h
    obtain ⟨q, hq, hqd⟩ := h
    rw [beq_iff_eq] at hqd
    refine List.mem_map.mpr ⟨q, hq, ?_⟩
    simp [replace_by_doi, hqd]
  · rw [upsert_row_of_not_mem h]
    exact List.mem_append_right _ (List.mem_singleton.mpr rfl)

/-- `','.join` of two or more pieces starts with the first piece and a
comma. -/
lemma join_comma_cons_cons (a b : Str) (t : List Str) :
    join_comma (a :: b :: t) = a ++ ',' :: join_comma (b :: t) := by
  simp [join_comma, List.intercalate, List.intersperse]

/-- `','.join as` is empty only for `[]` and `[""]`. -/
lemma join_comma_ne_nil {as : List Str} (hne : as ≠ []) (h : as ≠ [[]]) :
    join_comma as ≠ [] := by
  match as with
  | [] => exact absurd rfl hne
  | [a] =>
      have ha : a ≠ [] := fun hn => h (by rw [hn])
      simpa [join_comma, List.intercalate, List.intersperse] using ha
  | a :: b :: t =>
      rw [join_comma_cons_cons]
      simp

/-- Splitting `','.join as` on the comma recovers `as` when `as` is
non-empty and comma-free. -/
lemma split_comma_join_comma {as : List Str} (h1 : ∀ a ∈ as, ',' ∉ a)
    (h2 : as ≠ []) : split_comma (join_comma as) = as := by
  show ([','].intercalate as).splitOn ',' = as
  exact List.splitOn_intercalate as ',' h1 h2

/-- The `load_row` reconstruction of a stored `','.join as` column yields
`as` back, for comma-free `as` other than `[""]` (whose stored string is
empty and is loaded as the empty list). -/
lemma load_authors_round {as : List Str} (h1 : ∀ a ∈ as, ',' ∉ a)
    (h3 : as ≠ [[]]) :
    (if join_comma as = [] then [] else split_comma (join_comma as)) = as := by
  match as with
  | [] => simp [join_comma, List.intercalate]
  | a :: t =>
      have hne : (a :: t) ≠ [] := by simp
      rw [if_neg (join_comma_ne_nil hne h3)]
      exact split_comma_join_comma h1 hne

/-- A candidate parsed from the search reply: a dict with the keys
`title`, `url`, `description` (each possibly absent). -/
structure SearchResult where
  title : Option Str
  url : Option Str
  description : Option Str
deriving DecidableEq, Repr

/-- Outcome of the one model round trip in `web_search_papers`: the
request or the JSON parse throws (`failure`, caught by the `except`
clause), the reply parses but is not an array (`jsonNonArray`), or it
parses as an array of candidates. -/
inductive ModelReply where
  | failure
  | jsonNonArray
  | jsonArray (rs : List SearchResult)
deriving DecidableEq, Repr

/-- The `search_prompt` f-string of `web_search_papers` (mains.py lines
147-153); `num_results` is interpolated into it in decimal. -/
def search_prompt (query : Str) (num_results : Nat) : Str :=
  "\n            Perform an academic web search for the most relevant research papers on:\n            \"".data
  ++ query
  ++ "\"\n            \n            Provide ".data
  ++ (Nat.repr num_results).data
  ++ " most academically significant papers.\n            Strictly return a JSON array with: title, url, description\n            ".data

/-- `CebrasPaperFetcher.web_search_papers` (mains.py lines 131-166).
Guard: `if not query or len(query.strip()) < 2: return []` — before any
model interaction.  Otherwise one request is sent (the prompt is
returned as the second component; `none` means no request was made) and
the reply is handled by
`return search_results if isinstance(search_results, list) else []`,
with the `except` clause mapping transport/parse errors to `[]`. -/
def web_search_papers (query : Str) (num_results : Nat) (reply : ModelReply) :
    List SearchResult × Option Str :=
  if query = [] ∨ (py_strip query).length < 2 then ([], none)
  else
    (match reply with
     | .failure => []
     | .jsonNonArray => []
     | .jsonArray rs => rs,
     some (search_prompt query num_results))

/-- The `paper_content` f-string of `fetch_paper_details` (mains.py
lines 187-193). -/
def paper_content_blob (selected : SearchResult) (query : Str) : Str :=
  "\n            Title: ".data ++ selected.title.getD "Unknown Title".data
  ++ "\n            Source: ".data ++ selected.url.getD "Unknown Source".data
  ++ "\n            Description: ".data
  ++ selected.description.getD "No description".data
  ++ "\n            \n            Research details for query: ".data ++ query
  ++ "\n            ".data

/-- The raw mapping parsed from the extraction reply.  The prompt asks
for the keys `title`, `authors`, `abstract`, `key_contributions`,
`research_domains`, `potential_citations`; an arbitrary JSON object may
also carry a `doi` key, which the code never reads.  The all-`none`
value models the empty dict `{}` that `extract_paper_details` returns on
any failure. -/
structure PaperDetails where
  title : Option Str
  authors : Option (List Str)
  abstract : Option Str
  key_contributions : Option (List Str)
  research_domains : Option (List Str)
  potential_citations : Option (List Str)
  doi : Option Str
deriving DecidableEq, Repr

/-- The empty mapping `{}`: every `dict.get` on it yields the default. -/
def empty_details : PaperDetails :=
  ⟨none, none, none, none, none, none, none⟩

/-- The `ingest_data` dict built inside `fetch_paper_details` (mains.py
lines 197-204; identically main.py lines 169-176).  Its `doi` is always
`f"doi:cerebras-{re.sub(r'[^a-zA-Z0-9]', '-', paper_details.get('title', 'unknown'))}"`;
no `doi` of the raw mapping is consulted. -/
def build_ingest_data (details : PaperDetails) (selected : SearchResult)
    (paper_content : Str) : PaperData :=
  { title := some (details.title.getD (selected.title.getD "Untitled".data))
    authors := some (details.authors.getD [])
    content := some (details.abstract.getD paper_content)
    citations := some (details.potential_citations.getD [])
    doi := some ("doi:cerebras-".data
      ++ slugify (details.title.getD "unknown".data))
    source := some (selected.url.getD "Cerebras Web Search".data) }

/-- `CebrasPaperFetcher.fetch_paper_details` (mains.py lines 168-210):
search with the default `num_results = 5`, take the first candidate,
extract (the extraction reply is the oracle `details`), build the ingest
data.  `none` models the empty dict `{}` returned when the search yields
no candidates. -/
def fetch_paper_details (query : Str) (searchReply : ModelReply)
    (details : PaperDetails) : Option PaperData :=
  match (web_search_papers query 5 searchReply).1 with
  | [] => none
  | selected :: _ =>
      some (build_ingest_data details selected
        (paper_content_blob selected query))

/-- `ScientificLiteratureExplorer.fetch_and_ingest_research_paper`
(mains.py lines 320-338): a failed fetch returns the error result
without touching the store; otherwise the fetched record is ingested. -/
def fetch_and_ingest_research_paper (s : Store) (query : Str)
    (searchReply : ModelReply) (details : PaperDetails) :
    Store × IngestResult :=
  match fetch_paper_details query searchReply details with
  | none => (s, .error "Could not fetch paper details".data)
  | some pd => ingest_paper s pd

/-- `f'doi:demo-{search_query.replace(" ", "-")}'`
(app-frontend.py line 289). -/
def demo_doi (query : Str) : Str :=
  "doi:demo-".data ++ query.map fun c => if c = ' ' then '-' else c

/-- The demo `content` f-string (app-frontend.py lines 292-301). -/
def demo_content (query scope : Str) (min_content_length : Nat) : Str :=
  "\n                            Exploratory overview of ".data ++ query
  ++ "\n                            \n                            Key Points:\n                            - Preliminary research insights\n                            - Scope: ".data
  ++ scope
  ++ "\n                            - Minimum Content Length: ".data
  ++ (Nat.repr min_content_length).data
  ++ "\n                            \n                            This is a demonstration entry due to limited search results.\n                            ".data

/-- The `demo_ingest_data` fallback record built by
`render_search_section` (app-frontend.py lines 288-304). -/
def demo_ingest_data (query scope : Str) (min_content_length : Nat) :
    PaperData :=
  { doi := some (demo_doi query)
    title := some ("Research Insights: ".data ++ query)
    authors := some ["Research Team".data]
    content := some (demo_content query scope min_content_length)
    citations := some []
    source := some "Demonstration Repository".data }

/-- The banner `render_search_section` shows after the Discover button:
`st.warning` for a blank query, `st.success` for a real fetch,
`st.info` for the demo fallback, `st.error` when even the fallback
upsert failed. -/
inductive Banner where
  | warn
  | success (title : Str)
  | info
  | error
deriving DecidableEq, Repr

/-- The discovery flow of `ScientificLiteratureApp.render_search_section`
(app-frontend.py lines 271-311): validate the query, try
`fetch_and_ingest_research_paper`, and on a non-success status ingest the
demo record instead. -/
def render_search_section_discover (s : Store) (query : Str)
    (searchReply : ModelReply) (details : PaperDetails)
    (scope : Str) (min_content_length : Nat) : Store × Banner :=
  if py_strip query = [] then (s, .warn)
  else
    match fetch_and_ingest_research_paper s query searchReply details with
    | (s1, .success _ t) => (s1, .success t)
    | (s1, .error _) =>
        match ingest_paper s1 (demo_ingest_data query scope min_content_length) with
        | (s2, .success _ _) => (s2, .info)
        | (s2, .error _) => (s2, .error)

/-- A failed search reply produces no candidates, whatever the query. -/
lemma web_search_papers_failure (q : Str) (n : Nat) :
    (web_search_papers q n .failure).1 = [] := by
  rw [web_search_papers]
  split
  · rfl
  · rfl

/-- With the search failed, `fetch_paper_details` returns the empty
dict, whatever the extraction oracle. -/
lemma fetch_paper_details_failure (q : Str) (d : PaperDetails) :
    fetch_paper_details q .failure d = none := by
  simp only [fetch_paper_details, web_search_papers_failure]

/-- Payload of the first C3 upsert: doi `x`, `{title: "A"}`. -/
def c3_payload1 (x : Str) : PaperData :=
  { doi := some x, title := some "A".data, authors := none,
    content := none, citations := none, source := none }

/-- Payload of the second C3 upsert: doi `x`, `{title: "B", content: "C"}`. -/
def c3_payload2 (x : Str) : PaperData :=
  { doi := some x, title := some "B".data, authors := none,
    content := some "C".data, citations := none, source := none }

/-- C3: replace-not-merge.  Upserting doi `x` with `{title:"A"}` and then
with `{title:"B", content:"C"}` leaves a single stored row for `x` whose
title is `"B"` and content `"C"`; every column the second payload omitted
(authors, citations, source) holds its default, not the first write's
value. -/
theorem c3_replace_not_merge (x : Str) :
    (ingest_paper (ingest_paper [] (c3_payload1 x)).1 (c3_payload2 x)).1 =
      [{ doi := x, title := "B".data, authors := [], content := "C".data,
         citations := [], source := [] }] := by
  simp [ingest_paper, ingest_paper_with_fault, db_write, upsert_row,
    ingest_paper_row, replace_by_doi, c3_payload1, c3_payload2, join_comma,
    List.intercalate]

/-- A record whose `citations` key holds `["ca"]`. -/
def c1_payload_citations1 : PaperData :=
  { doi := some "doi:x".data, title := some "T".data,
    authors := some ["A1".data], content := some "C".data,
    citations := some ["ca".data], source := some "S".data }

/-- The same record with empty `citations`. -/
def c1_payload_citations2 : PaperData :=
  { doi := some "doi:x".data, title := some "T".data,
    authors := some ["A1".data], content := some "C".data,
    citations := some [], source := some "S".data }

/-- A record whose `authors` list is the single empty string `[""]`. -/
def c1_payload_empty_author : PaperData :=
  { doi := some "doi:y".data, title := some "T".data,
    authors := some [[]], content := none, citations := none,
    source := none }

/-- C1 is false as stated: (a) `load_papers` does not read the
`citations` column back at all (its SELECT lists only
`doi, title, authors, content, source`), so two upserted records that
differ only in their comma-free `citations` produce identical
`load_papers` output and the input citations cannot be recovered;
(b) the comma-free authors list `[""]` is stored as the empty string
and loaded back as `[]`, not `[""]`. -/
theorem c1_counterexample :
    (load_papers (ingest_paper [] c1_payload_citations1).1 =
        load_papers (ingest_paper [] c1_payload_citations2).1
      ∧ c1_payload_citations1.citations ≠ c1_payload_citations2.citations)
    ∧ (c1_payload_empty_author.authors = some [[]]
      ∧ (load_papers (ingest_paper [] c1_payload_empty_author).1).map
          LoadedPaper.authors = [[]]
      ∧ (load_papers (ingest_paper [] c1_payload_empty_author).1).map
          LoadedPaper.authors ≠ [[[]]]) := by
  decide

/-- C1 amended: for every record whose `authors` value is a comma-free
sequence other than `[""]`, after `ingest_paper` a subsequent
`load_papers` contains a record with that doi whose `authors` sequence
equals the input sequence (an empty stored string yielding the empty
sequence).  The `citations` column round-trips into the table but is not
returned by `load_papers`. -/
theorem c1_authors_round_trip (s : Store) (pd : PaperData) (as : List Str)
    (h1 : pd.authors = some as) (h2 : ∀ a ∈ as, ',' ∉ a)
    (h3 : as ≠ [[]]) :
    ∃ lp ∈ load_papers (ingest_paper s pd).1,
      lp.doi = pd.doi.getD "unknown".data ∧ lp.authors = as := by
  refine ⟨load_row (ingest_paper_row pd),
    List.mem_map_of_mem _ (self_mem_upsert_row s (ingest_paper_row pd)),
    rfl, ?_⟩
  show (if join_comma (pd.authors.getD []) = [] then []
    else split_comma (join_comma (pd.authors.getD []))) = as
  rw [h1]
  exact load_authors_round h2 h3

/-- The C1 witness record, with `authors=["Ann Lee","Bo Kim"]`. -/
def c1_witness_payload : PaperData :=
  { doi := some "10.1/tr".data, title := some "T".data,
    authors := some ["Ann Lee".data, "Bo Kim".data],
    content := none, citations := none, source := none }

/-- C1 witness: the amended round trip at a concrete record. -/
theorem c1_authors_round_trip_witness :
    ∃ lp ∈ load_papers (ingest_paper [] c1_witness_payload).1,
      lp.doi = c1_witness_payload.doi.getD "unknown".data
      ∧ lp.authors = ["Ann Lee".data, "Bo Kim".data] :=
  c1_authors_round_trip [] c1_witness_payload _ rfl (by decide) (by decide)

/-- C4: upsert idempotence and row-count effect.  Upserting the same
payload twice leaves the content (hence length) of `load_papers`
unchanged after the second upsert; an upsert whose doi is absent from the
table grows it by exactly one row, and an upsert whose doi is present
leaves the row count unchanged. -/
theorem c4_upsert_idempotent_and_count (s : Store) (pd : PaperData) :
    (load_papers (ingest_paper (ingest_paper s pd).1 pd).1
        = load_papers (ingest_paper s pd).1
      ∧ (load_papers (ingest_paper (ingest_paper s pd).1 pd).1).length
        = (load_papers (ingest_paper s pd).1).length)
    ∧ ((∀ r ∈ s, r.doi ≠ pd.doi.getD "unknown".data) →
        (ingest_paper s pd).1.length = s.length + 1)
    ∧ ((∃ r ∈ s, r.doi = pd.doi.getD "unknown".data) →
        (ingest_paper s pd).1.length = s.length) := by
  have hidem := congrArg load_papers (upsert_row_idem s (ingest_paper_row pd))
  refine ⟨⟨hidem, congrArg List.length hidem⟩, ?_, ?_⟩
  · intro h
    have hany : ¬ (s.any fun q => q.doi == (ingest_paper_row pd).doi) = true := by
      rw [List.any_eq_true]
      rintro ⟨q, hq, hqd⟩
      rw [beq_iff_eq] at hqd
      exact h q hq hqd
    show (upsert_row s (ingest_paper_row pd)).length = s.length + 1
    rw [upsert_row_of_not_mem hany]
    simp
  · rintro ⟨r, hr, hrd⟩
    have hany : (s.any fun q => q.doi == (ingest_paper_row pd).doi) = true :=
      List.any_eq_true.mpr ⟨r, hr, by rw [beq_iff_eq]; exact hrd⟩
    show (upsert_row s (ingest_paper_row pd)).length = s.length
    rw [upsert_row_of_mem hany, List.length_map]

/-- The C4 witness payload. -/
def c4_payload : PaperData :=
  { doi := some "doi:w".data, title := some "W".data,
    authors := some ["Ann".data], content := none, citations := none,
    source := none }

/-- A stored row carrying the C4 witness payload's doi. -/
def c4_existing_row : Row := ingest_paper_row c4_payload

/-- C4 witness: idempotence at a concrete payload over the empty table,
the +1 row count for its fresh doi, and the unchanged row count when a
row with that doi is already present. -/
theorem c4_witness :
    load_papers (ingest_paper (ingest_paper [] c4_payload).1 c4_payload).1
      = load_papers (ingest_paper [] c4_payload).1
    ∧ (ingest_paper [] c4_payload).1.length = ([] : Store).length + 1
    ∧ (ingest_paper [c4_existing_row] c4_payload).1.length
      = [c4_existing_row].length :=
  ⟨(c4_upsert_idempotent_and_count [] c4_payload).1.1,
   (c4_upsert_idempotent_and_count [] c4_payload).2.1 (by decide),
   (c4_upsert_idempotent_and_count [c4_existing_row] c4_payload).2.2
     (by decide)⟩

/-- C6: upsert error atomicity and no-raise.  When the storage layer
raises (`fault = some m`, a `sqlite3.Error` with message `m`),
`ingest_paper` leaves the table unchanged and returns
`{'status':'error','message': m}`; the function is total, so no
exception reaches the caller. -/
theorem c6_upsert_error_atomic (fault : Option Str) (s : Store)
    (pd : PaperData) (m : Str) (h : fault = some m) :
    ingest_paper_with_fault fault s pd = (s, IngestResult.error m) := by
  subst h
  rfl

/-- C6 witness: a concrete storage fault rolls back and yields the error
result. -/
theorem c6_upsert_error_atomic_witness :
    ingest_paper_with_fault (some "database is locked".data) []
        ⟨none, none, none, none, none, none⟩
      = ([], IngestResult.error "database is locked".data) :=
  c6_upsert_error_atomic (some "database is locked".data) []
    ⟨none, none, none, none, none, none⟩ "database is locked".data rfl

/-- A concrete stored row for the C7 counterexample. -/
def c7_row : Row := ⟨"doi:z".data, "T".data, [], [], [], []⟩

/-- C7 is false as stated: when the storage cannot be opened
(`sqlite3.connect` raises, here with SQLite's message), `load_papers`
does not fail with a `StoreUnavailable` signal — the `except
sqlite3.Error` clause returns the plain empty sequence, identical to the
result on an empty table, even though the table held a row. -/
theorem c7_counterexample :
    load_papers_with_fault (some "unable to open database file".data)
        [c7_row] = []
    ∧ load_papers_with_fault none [] = []
    ∧ [c7_row] ≠ ([] : Store) := by
  decide

/-- C7 amended: `load_papers` returns the empty sequence — never a
distinguishable failure — when the storage cannot be opened or a read
throws (any `sqlite3.Error`, `fault = some m`), and likewise on an empty
table. -/
theorem c7_load_failure_empty (m : Str) (s : Store) :
    load_papers_with_fault (some m) s = [] ∧ load_papers [] = [] :=
  ⟨rfl, rfl⟩

/-- First doi-less C9 payload. -/
def c9_payload1 : PaperData :=
  { doi := none, title := some "first".data, authors := none,
    content := none, citations := none, source := none }

/-- Second doi-less C9 payload. -/
def c9_payload2 : PaperData :=
  { doi := none, title := some "second".data, authors := none,
    content := none, citations := none, source := none }

/-- C9: a payload with no `doi` key is stored under the literal doi
`"unknown"`, and ingesting two such payloads in sequence leaves only the
later one in the store (the second silently replaces the first). -/
theorem c9_missing_doi_key (pd1 pd2 : PaperData) (h1 : pd1.doi = none)
    (h2 : pd2.doi = none) :
    (ingest_paper_row pd1).doi = "unknown".data
    ∧ (ingest_paper_row pd2).doi = "unknown".data
    ∧ (ingest_paper [] pd1).1 = [ingest_paper_row pd1]
    ∧ (ingest_paper (ingest_paper [] pd1).1 pd2).1 = [ingest_paper_row pd2] := by
  refine ⟨by simp [ingest_paper_row, h1], by simp [ingest_paper_row, h2], ?_, ?_⟩
  · simp [ingest_paper, ingest_paper_with_fault, db_write, upsert_row]
  · simp [ingest_paper, ingest_paper_with_fault, db_write, upsert_row,
      replace_by_doi, ingest_paper_row, h1, h2]

/-- C9 witness: two concrete doi-less payloads; the second replaces the
first under the key `"unknown"`. -/
theorem c9_missing_doi_key_witness :
    (ingest_paper_row c9_payload1).doi = "unknown".data
    ∧ (ingest_paper_row c9_payload2).doi = "unknown".data
    ∧ (ingest_paper [] c9_payload1).1 = [ingest_paper_row c9_payload1]
    ∧ (ingest_paper (ingest_paper [] c9_payload1).1 c9_payload2).1
      = [ingest_paper_row c9_payload2] :=
  c9_missing_doi_key c9_payload1 c9_payload2 rfl rfl

/-- A raw extraction mapping carrying a present, non-empty `doi`. -/
def c2_raw_details : PaperDetails :=
  { title := some "Quantum ML!".data, authors := none, abstract := none,
    key_contributions := none, research_domains := none,
    potential_citations := none, doi := some "10.1234/abc".data }

/-- The selected search candidate for the C2 counterexample. -/
def c2_selected : SearchResult := ⟨none, none, none⟩

/-- C2 is false as stated: for a raw mapping whose `doi` field is present
and non-empty (`"10.1234/abc"`), the built record's doi is not that
value; it is synthesized from the title regardless. -/
theorem c2_counterexample :
    c2_raw_details.doi = some "10.1234/abc".data
    ∧ "10.1234/abc".data ≠ []
    ∧ (build_ingest_data c2_raw_details c2_selected []).doi
        ≠ some "10.1234/abc".data
    ∧ (build_ingest_data c2_raw_details c2_selected []).doi
        = some "doi:cerebras-Quantum-ML-".data := by
  decide

/-- C2 amended: for every raw input mapping the built record's doi
equals `"doi:cerebras-"` followed by the title (default `"unknown"`)
with every character outside `[A-Za-z0-9]` replaced by `"-"`; any doi of
the raw mapping is ignored.  Being an equation valid for all inputs, the
synthesis is deterministic. -/
theorem c2_doi_always_synthesized (details : PaperDetails)
    (selected : SearchResult) (paper_content : Str) :
    (build_ingest_data details selected paper_content).doi
      = some ("doi:cerebras-".data
        ++ slugify (details.title.getD "unknown".data)) :=
  rfl

/-- C8: short-query rejection.  A query whose length after trimming is
below 2 yields the empty sequence, and no prompt is handed to the model
(the second component stays `none`). -/
theorem c8_short_query_rejection (query : Str) (num_results : Nat)
    (reply : ModelReply) (h : (py_strip query).length < 2) :
    web_search_papers query num_results reply = ([], none) := by
  rw [web_search_papers.eq_def, if_pos (Or.inr h)]

/-- C8 witness: `search("a")` with an array reply standing by is
rejected without a model call. -/
theorem c8_short_query_rejection_witness :
    (py_strip "a".data).length < 2
    ∧ web_search_papers "a".data 5
        (ModelReply.jsonArray [⟨some "T".data, none, none⟩]) = ([], none) :=
  ⟨by decide, c8_short_query_rejection "a".data 5
    (ModelReply.jsonArray [⟨some "T".data, none, none⟩]) (by decide)⟩

/-- C10: the `num_results` argument only alters the prompt text.  For a
reply that parses as a JSON array, the array is returned verbatim — same
list, same length, independent of `num_results` — so the result length
is not bounded by the limit; `num_results` shows up only in the prompt
component. -/
theorem c10_limit_only_in_prompt (query : Str) (n n2 : Nat)
    (rs : List SearchResult)
    (h : ¬(query = [] ∨ (py_strip query).length < 2)) :
    (web_search_papers query n (ModelReply.jsonArray rs)).1 = rs
    ∧ (web_search_papers query n (ModelReply.jsonArray rs)).1
      = (web_search_papers query n2 (ModelReply.jsonArray rs)).1
    ∧ (web_search_papers query n (ModelReply.jsonArray rs)).1.length
      = rs.length
    ∧ (web_search_papers query n (ModelReply.jsonArray rs)).2
      = some (search_prompt query n) := by
  simp [web_search_papers, if_neg h]

/-- Three concrete candidates for the C10 witness. -/
def c10_results : List SearchResult :=
  [⟨some "P1".data, none, none⟩, ⟨some "P2".data, none, none⟩,
   ⟨some "P3".data, none, none⟩]

/-- C10 witness: with `num_results = 1` a three-element array reply is
returned whole. -/
theorem c10_limit_only_in_prompt_witness :
    (web_search_papers "machine learning".data 1
        (ModelReply.jsonArray c10_results)).1 = c10_results
    ∧ (web_search_papers "machine learning".data 1
        (ModelReply.jsonArray c10_results)).1
      = (web_search_papers "machine learning".data 2
        (ModelReply.jsonArray c10_results)).1
    ∧ (web_search_papers "machine learning".data 1
        (ModelReply.jsonArray c10_results)).1.length = c10_results.length
    ∧ (web_search_papers "machine learning".data 1
        (ModelReply.jsonArray c10_results)).2
      = some (search_prompt "machine learning".data 1) :=
  c10_limit_only_in_prompt "machine learning".data 1 2 c10_results (by decide)

/-- The row the demo fallback stores. -/
def demo_row (query scope : Str) (min_content_length : Nat) : Row :=
  ingest_paper_row (demo_ingest_data query scope min_content_length)

/-- C5: fallback convergence.  When the Search Client fails
(`ModelReply.failure`: transport or JSON error, so the fetch stage ends
in a non-success status) and the Extraction Client likewise yields
nothing (`empty_details`), the discovery flow still stores exactly one
new record — the table becomes `s ++ [demo_row …]` — whose source is
`"Demonstration Repository"` and whose title contains the query text,
and ends in the info banner rather than a bare failure. -/
theorem c5_fallback_convergence (s : Store) (query scope : Str)
    (min_content_length : Nat) (hq : py_strip query ≠ [])
    (hfresh : ∀ r ∈ s, r.doi ≠ demo_doi query) :
    render_search_section_discover s query ModelReply.failure empty_details
        scope min_content_length
      = (s ++ [demo_row query scope min_content_length], Banner.info)
    ∧ (demo_row query scope min_content_length).source
      = "Demonstration Repository".data
    ∧ ∃ pre post,
        (demo_row query scope min_content_length).title
          = pre ++ query ++ post := by
  refine ⟨?_, rfl, "Research Insights: ".data, [], ?_⟩
  · have hfetch : fetch_and_ingest_research_paper s query ModelReply.failure
        empty_details
        = (s, IngestResult.error "Could not fetch paper details".data) := by
      simp only [fetch_and_ingest_research_paper, fetch_paper_details_failure]
    have hany : ¬ (s.any fun q =>
        q.doi == (ingest_paper_row
          (demo_ingest_data query scope min_content_length)).doi) = true := by
      rw [List.any_eq_true]
      rintro ⟨q, hq', hqd⟩
      rw [beq_iff_eq] at hqd
      exact hfresh q hq' hqd
    simp only [render_search_section_discover, if_neg hq, hfetch,
      ingest_paper, ingest_paper_with_fault, db_write]
    rw [upsert_row_of_not_mem hany]
    rfl
  · show (demo_ingest_data query scope min_content_length).title.getD []
      = "Research Insights: ".data ++ query ++ []
    simp [demo_ingest_data]

/-- C5 witness: both clients failing on the query `"Topic X"` over the
empty store still leaves exactly the demo record stored. -/
theorem c5_fallback_convergence_witness :
    render_search_section_discover [] "Topic X".data ModelReply.failure
        empty_details "Standard".data 50
      = ([] ++ [demo_row "Topic X".data "Standard".data 50], Banner.info)
    ∧ (demo_row "Topic X".data "Standard".data 50).source
      = "Demonstration Repository".data
    ∧ ∃ pre post,
        (demo_row "Topic X".data "Standard".data 50).title
          = pre ++ "Topic X".data ++ post :=
  c5_fallback_convergence [] "Topic X".data "Standard".data 50 (by decide)
    (by simp)
